import Mathlib

/-!
Shallow embedding of the PI_WeatherStation kiosk application (`src/main.py`).

Modelling conventions.  JSON numbers from the provider payload are rationals
(ℚ); Python `int(x)` truncation toward zero is `pyInt`.  A dictionary field
the code reads as `d['k']` (raising `KeyError` when absent) becomes an
`Option` field inspected by a `match` that produces a `PyErr` on `none`,
while `d.get('k', v)` becomes `Option.getD`.  Decoded `PhotoImage` objects
are abstract `Image` tokens; the filesystem plus PIL decoder behind
`get_weather_icon` is an oracle `String → FileState`.  Tk render targets
(labels, the alert canvas) are the fields of `RenderState`, and
`widget.config(...)` is a functional record update.  Timer delays are kept
in milliseconds exactly as passed to `self.after`.
-/

namespace PIWeather

/-- Abstract decoded image (a PIL/Tk `PhotoImage`); only identity matters. -/
structure Image where
  id : Nat
  deriving DecidableEq, Repr

/-- Python exception kinds the duck-typed payload accesses can raise. -/
inductive PyErr
  | keyError
  | indexError
  deriving DecidableEq, Repr

/-- Python `int(x)` applied to a number: truncation toward zero
(used at lines 323, 329, 331, 343, 344 of `src/main.py`). -/
def pyInt (q : ℚ) : Int := if q < 0 then -Int.floor (-q) else Int.floor q

/-- The temperature display text built by the f-strings at lines 323 and
343: the truncated integer value followed by a degree sign. -/
def fmtDeg (q : ℚ) : String := toString (pyInt q) ++ "°"

/-- Python `str.upper()` (ASCII view, enough for the payloads modelled). -/
def pyUpper (s : String) : String := String.mk (s.data.map Char.toUpper)

/-- Python `str.capitalize()`: first character upper-cased, the rest of the
string lower-cased. -/
def pyCapitalize (s : String) : String :=
  match s.data with
  | [] => ""
  | c :: rest => String.mk (c.toUpper :: rest.map Char.toLower)

/-- Line 322: `res.get("timezone", "Local").split('/')[-1].replace('_', ' ')`.
`splitOn` never returns an empty list, so the `getLastD` default is inert. -/
def cityOf (tz : Option String) : String :=
  let s := tz.getD "Local"
  ((s.splitOn "/").getLastD s).replace "_" " "

/-- Upper-cased three-letter weekday names, Monday = 0. -/
def dayAbbrev : Nat → String
  | 0 => "MON"
  | 1 => "TUE"
  | 2 => "WED"
  | 3 => "THU"
  | 4 => "FRI"
  | 5 => "SAT"
  | _ => "SUN"

/-- Line 341: `datetime.fromtimestamp(dt).strftime("%a").upper()`.
The local-time zone offset of `fromtimestamp` is abstracted to UTC and the
`%a` + `.upper()` pair is collapsed into the upper-cased abbreviation
(1970-01-01 was a Thursday, index 3 with Monday = 0). -/
def dayName (ts : Nat) : String := dayAbbrev ((ts / 86400 + 3) % 7)

/-- One entry of a `weather` array: `description` and `icon` fields. -/
structure WeatherDesc where
  description : String
  icon : String
  deriving DecidableEq, Repr

/-- The `current` section of the payload.  Every field the code reads is
here; `Option` marks that the JSON key may be absent (direct subscript
access then raises `KeyError`). -/
structure Current where
  temp : Option ℚ
  feels_like : Option ℚ
  humidity : Option ℚ
  wind_speed : Option ℚ
  uvi : Option ℚ
  visibility : Option ℚ
  weather : List WeatherDesc
  deriving DecidableEq, Repr

/-- The `temp` block of a daily entry (`day`, `min`, `max` are the fields
the code reads). -/
structure TempBlock where
  day : ℚ
  min : ℚ
  max : ℚ
  deriving DecidableEq, Repr

/-- The `feels_like` block of a daily entry; only `day` is read. -/
structure DayFeels where
  day : ℚ
  deriving DecidableEq, Repr

/-- One daily forecast entry.  The code reads `day_data['weather'][0]`;
the leading weather descriptor is modelled directly as `weather`.  `rain`
is read with `.get('rain', 0)`, hence `Option`. -/
structure DayData where
  dt : Nat
  temp : TempBlock
  feels_like : DayFeels
  humidity : Int
  rain : Option ℚ
  weather : WeatherDesc
  deriving DecidableEq, Repr

/-- One alert record; the code reads `a['event']` and `a['sender_name']`.
Entries are modelled with the read fields present (no claim exercises a
malformed alert record); `description` is carried because the spec talks
about it. -/
structure Alert where
  event : String
  sender_name : String
  description : String
  deriving DecidableEq, Repr

/-- The parsed JSON response of one fetch (`res` at line 318). -/
structure Res where
  timezone : Option String
  current : Option Current
  daily : List DayData
  alerts : List Alert
  message : Option String
  deriving DecidableEq, Repr

/-- The values behind the detail block built at lines 329–334.  String
formatting of the numbers (f-string padding, `:.1f`) is abstracted to the
values themselves: `feels` and `wind` already truncated by `int(...)`,
`visKm` the raw metres divided by 1000. -/
structure Det where
  feels : Int
  humid : ℚ
  wind : Int
  uv : ℚ
  visKm : ℚ
  deriving DecidableEq, Repr

/-- One of the five forecast boxes created in `setup_ui` (lines 229–246):
its four text labels, its tooltip `details` string, and its icon slot. -/
structure ForecastCell where
  day : String
  tempFeel : String
  minMax : String
  humidity : String
  details : String
  icon : Option Image
  deriving DecidableEq, Repr

/-- The passive render targets the refresh cycle writes into. -/
structure RenderState where
  city : String
  temp : String
  desc : String
  bigIcon : Option Image
  det : Option Det
  cells : List ForecastCell
  banner : String
  bannerRed : Bool
  deriving DecidableEq, Repr

/-- A forecast box as `setup_ui` initialises it (lines 233–245). -/
def initCell : ForecastCell :=
  { day := "---", tempFeel := "--°/--°", minMax := "L:-- H:--",
    humidity := "H:--%", details := "", icon := none }

/-- The five forecast boxes as created by the `for i in range(5)` loop. -/
def initCells : List ForecastCell :=
  [initCell, initCell, initCell, initCell, initCell]

/-- The render targets as `setup_ui` leaves them (lines 183, 199, 205,
211, 216): details label empty, banner "Initializing...". -/
def initState : RenderState :=
  { city := "---", temp := "--°", desc := "Loading...", bigIcon := none,
    det := none, cells := initCells, banner := "Initializing...",
    bannerRed := false }

/-- Lines 329–334: the detail block.  Each direct subscript
(`curr['feels_like']`, `curr['humidity']`, `curr['wind_speed']`) raises
`KeyError` when absent, in evaluation order; `uvi` and `visibility` use
`.get(..., 0)`. -/
def composeDet (curr : Current) : Except PyErr Det :=
  match curr.feels_like with
  | none => Except.error PyErr.keyError
  | some f =>
    match curr.humidity with
    | none => Except.error PyErr.keyError
    | some h =>
      match curr.wind_speed with
      | none => Except.error PyErr.keyError
      | some w =>
        Except.ok { feels := pyInt f, humid := h, wind := pyInt w,
                    uv := curr.uvi.getD 0,
                    visKm := curr.visibility.getD 0 / 1000 }

/-- Lines 340–349: the per-cell body of the forecast loop.  `geticon` is
the app's `get_weather_icon` (code, size); when it returns `none` the
`if img_f:` guard keeps the previous icon.  Daily entries are modelled
with their read fields present (no claim exercises a malformed entry). -/
def renderCell (geticon : String → String → Option Image)
    (old : ForecastCell) (d : DayData) : ForecastCell :=
  { day := dayName d.dt,
    tempFeel := fmtDeg d.temp.day ++ "/" ++ fmtDeg d.feels_like.day,
    minMax := "L:" ++ toString (pyInt d.temp.min) ++ " H:" ++
      toString (pyInt d.temp.max),
    humidity := "H:" ++ toString d.humidity ++ "%",
    details := pyCapitalize d.weather.description ++ "\nRain: " ++
      toString (d.rain.getD 0) ++ "mm",
    icon := match geticon d.weather.icon "@2x" with
            | some img => some img
            | none => old.icon }

/-- The indexed assignment of `for i, day_data in enumerate(sel)` writing
into `forecast_items[i]`: cells beyond the selected entries keep their
previous content. -/
def updateCellsAux (geticon : String → String → Option Image) :
    List ForecastCell → List DayData → List ForecastCell
  | [], _ => []
  | c :: cs, [] => c :: cs
  | c :: cs, d :: ds => renderCell geticon c d :: updateCellsAux geticon cs ds

/-- Line 337: `enumerate(res.get("daily", [])[1:6])` — the Python slice
`[1:6]` is drop 1 then take 5.  The loop always has at least as many
forecast boxes (5) as selected entries (≤ 5), so the pointwise model is
exact. -/
def updateCells (geticon : String → String → Option Image)
    (cells : List ForecastCell) (daily : List DayData) : List ForecastCell :=
  updateCellsAux geticon cells ((daily.drop 1).take 5)

/-- Lines 352–360: the alert banner.  `if alerts:` is nonemptiness; each
element contributes `"⚠️ {event.upper()}: {sender_name}"`, joined by
`"  |  "`; otherwise the last-sync line.  The Bool is the canvas colour
switch (darkred versus #111). -/
def buildBanner (alerts : List Alert) (now : String) : String × Bool :=
  match alerts with
  | [] => ("Last Sync: " ++ now, false)
  | a :: rest =>
    (String.intercalate "  |  "
      ((a :: rest).map (fun x => "⚠️ " ++ pyUpper x.event ++ ": " ++ x.sender_name)),
     true)

/-- Lines 321–360: the body of the `if "current" in res:` branch.  Render
targets are written one `config` at a time, so an exception in the middle
leaves the already-written fields in place: the result is the state as
written so far, paired with the pending exception (if any), which the
caller's broad `except` then catches.  `now` is
`datetime.now().strftime('%H:%M')`. -/
def publishCurrent (geticon : String → String → Option Image) (res : Res)
    (curr : Current) (now : String) (st : RenderState) :
    RenderState × Option PyErr :=
  let st1 := { st with city := cityOf res.timezone }
  match curr.temp with
  | none => (st1, some PyErr.keyError)
  | some t =>
    let st2 := { st1 with temp := fmtDeg t }
    match curr.weather.head? with
    | none => (st2, some PyErr.indexError)
    | some w =>
      let st3 := { st2 with desc := pyCapitalize w.description }
      let st4 := match geticon w.icon "@4x" with
                 | some img => { st3 with bigIcon := some img }
                 | none => st3
      match composeDet curr with
      | Except.error e => (st4, some e)
      | Except.ok d =>
        let st5 := { st4 with det := some d }
        let st6 := { st5 with cells := updateCells geticon st5.cells res.daily }
        let b := buildBanner res.alerts now
        ({ st6 with banner := b.1, bannerRed := b.2 }, none)

/-- Outcome of `requests.get(url).json()` at line 318: either the call
raised (connection error, timeout, JSON decode error) or it produced a
parsed payload. -/
inductive FetchResult
  | netError
  | payload (res : Res)

/-- Lines 316–365 of `update_weather` for a configured app: the `try`
body, the `if "current" in res` split, the broad `except` that logs and
keeps whatever state was written, and the unconditional
`self.after(600000, self.update_weather)` re-arm.  Returns the resulting
render state and the delay in milliseconds passed to `after`. -/
def updateWeather (geticon : String → String → Option Image)
    (fetch : FetchResult) (now : String) (st : RenderState) :
    RenderState × Nat :=
  match fetch with
  | FetchResult.netError => (st, 600000)
  | FetchResult.payload res =>
    match res.current with
    | some curr => ((publishCurrent geticon res curr now st).1, 600000)
    | none =>
      ({ st with desc := "API Error: " ++ res.message.getD "Check Settings" },
       600000)

/-- Keyword arguments actually passed to `requests.get` at line 318. -/
structure HttpGetCall where
  url : String
  timeout : Option ℚ
  deriving DecidableEq, Repr

/-- Line 317–318: the URL is built from the stored settings and
`requests.get(url)` is called with no `timeout` keyword at all. -/
def fetchCall (lat lon apiKey : String) : HttpGetCall :=
  { url := "https://api.openweathermap.org/data/3.0/onecall?lat=" ++ lat ++
      "&lon=" ++ lon ++ "&appid=" ++ apiKey ++ "&units=imperial",
    timeout := none }

/-- What the filesystem plus PIL decoder do for a given asset path:
the file is absent (`os.path.exists` false), present but undecodable
(`Image.open`/conversion raises), or decodes to an image. -/
inductive FileState
  | absent
  | corrupt
  | good (img : Image)
  deriving DecidableEq, Repr

/-- Line 154: `os.path.join(application_path, "images",
f"{icon_code}_t{size}.png")`, with the application directory abstracted
away. -/
def iconPath (icon_code size : String) : String :=
  "images/" ++ icon_code ++ "_t" ++ size ++ ".png"

/-- Lines 150–165, `get_weather_icon`.  The result triple is the returned
value, the new `self.icon_cache` (a map from cache key to decoded image),
and how many file-open/decode attempts this call performed (0 on a cache
hit or a missing file, 1 whenever `Image.open` runs).  The `corrupt`
branch is the `except` handler: the decode attempt raised, the error is
logged, `None` is returned and nothing is cached. -/
def getWeatherIcon (fs : String → FileState) (cache : String → Option Image)
    (icon_code size : String) :
    Option Image × (String → Option Image) × Nat :=
  match cache (icon_code ++ size) with
  | some photo => (some photo, cache, 0)
  | none =>
    match fs (iconPath icon_code size) with
    | FileState.absent => (none, cache, 0)
    | FileState.corrupt => (none, cache, 1)
    | FileState.good img =>
      (some img, fun k => if k = icon_code ++ size then some img else cache k, 1)

/-- Lines 367–375, one tick of `scroll_alerts` acting on the banner's
horizontal offset: the text is moved left by 2, and if the offset read
before the move was below -1000 the coords are reset to x = 800.  The
offset stays integral (it starts at 800 and every step is ±integer), so
the state is an `Int`. -/
def scrollStep (x : Int) : Int := if x < -1000 then 800 else x - 2

/-- Events acting on the refresh scheduler: a pending `after(600000, ...)`
timer fires, or the settings dialog's `save` runs with `changed` telling
whether the credentials differ from the stored ones (line 299). -/
inductive SchedEv
  | timerFire
  | forcedRefresh (changed : Bool)

/-- Number of outstanding self-re-arming `update_weather` timer chains.
A firing timer runs `update_weather`, which re-arms itself at line 365
(count unchanged); `save` with changed credentials calls
`self.update_weather()` directly (line 305), which also re-arms at line
365, adding a chain; an unchanged save does nothing. -/
def schedStep (n : Nat) : SchedEv → Nat
  | SchedEv.timerFire => n
  | SchedEv.forcedRefresh changed => if changed then n + 1 else n

/-- Icon lookup that always misses: models an app with no usable assets. -/
def gNone : String → String → Option Image := fun _ _ => none

/-- Render state with a previously published description. -/
def stCloudy : RenderState := { initState with desc := "Cloudy" }

/-- A payload whose `current` section is missing (provider-side error). -/
def resNoCurrent : Res :=
  { timezone := none, current := none, daily := [], alerts := [],
    message := none }

/-- A well-formed `current` section in which exactly the three fields the
spec calls optional (`feels_like`, `uvi`, `visibility`) are absent. -/
def currNoFeels : Current :=
  { temp := some 70, feels_like := none, humidity := some 50,
    wind_speed := some 5, uvi := none, visibility := none,
    weather := [{ description := "clear sky", icon := "01d" }] }

/-- Payload wrapping `currNoFeels`. -/
def resNoFeels : Res :=
  { timezone := some "America/Chicago", current := some currNoFeels,
    daily := [], alerts := [], message := none }

/-- A clear-sky weather descriptor. -/
def wdClear : WeatherDesc := { description := "clear sky", icon := "01d" }

/-- A `current` section with the required fields present and the two
`.get`-read fields (`uvi`, `visibility`) absent. -/
def currWitness : Current :=
  { temp := some 70, feels_like := some 68, humidity := some 50,
    wind_speed := some 5, uvi := none, visibility := none,
    weather := [wdClear] }

/-- Payload wrapping `currWitness`. -/
def resWitness : Res :=
  { timezone := some "America/Chicago", current := some currWitness,
    daily := [], alerts := [], message := none }

/-- An alert with an embedded newline in its description. -/
def floodAlert : Alert :=
  { event := "flood", sender_name := "NWS Chicago",
    description := "Heavy\nrain expected" }

/-- Filesystem oracle in which every asset file is absent. -/
def fsAbsent : String → FileState := fun _ => FileState.absent

/-- Filesystem oracle in which every asset file exists but fails to
decode. -/
def fsCorrupt : String → FileState := fun _ => FileState.corrupt

/-- Filesystem oracle in which every asset decodes to the same image. -/
def fsGood : String → FileState := fun _ => FileState.good { id := 1 }

/-- The empty icon cache (`self.icon_cache = {}`, line 120). -/
def emptyCache : String → Option Image := fun _ => none

/-- Concrete daily entries for witnesses. -/
def dayA : DayData :=
  { dt := 1760227200, temp := { day := 70, min := 60, max := 80 },
    feels_like := { day := 68 }, humidity := 40, rain := none,
    weather := { description := "light rain", icon := "10d" } }

/-- Second concrete daily entry. -/
def dayB : DayData :=
  { dt := 1760313600, temp := { day := 72, min := 61, max := 81 },
    feels_like := { day := 70 }, humidity := 45, rain := some 2,
    weather := { description := "scattered clouds", icon := "03d" } }

/-- Third concrete daily entry. -/
def dayC : DayData :=
  { dt := 1760400000, temp := { day := 74, min := 62, max := 82 },
    feels_like := { day := 73 }, humidity := 50, rain := none,
    weather := { description := "clear sky", icon := "01d" } }

/-- A daily sequence of length 3 (shorter than the expected 6). -/
def dailyThree : List DayData := [dayA, dayB, dayC]

/-- Does the character list `l` start with `p`? -/
def listStartsWith : List Char → List Char → Bool
  | [], _ => true
  | _ :: _, [] => false
  | a :: as, b :: bs => (a == b) && listStartsWith as bs

/-- Does `p` occur contiguously anywhere inside `l`? -/
def listHasInfix (p : List Char) : List Char → Bool
  | [] => p.isEmpty
  | b :: rest => listStartsWith p (b :: rest) || listHasInfix p rest

/-! Helper lemmas (shared, not tied to a single claim). -/

/-- The forecast loop never changes the number of forecast boxes. -/
theorem updateCellsAux_length (geticon : String → String → Option Image) :
    ∀ (cs : List ForecastCell) (ds : List DayData),
      (updateCellsAux geticon cs ds).length = cs.length := by
  intro cs
  induction cs with
  | nil => intro ds; rfl
  | cons c ct ih =>
    intro ds
    cases ds with
    | nil => rfl
    | cons d dt => simp [updateCellsAux, ih dt]

/-- Within the zipped range, cell `i` is the rendering of entry `i` over
the old cell `i`. -/
theorem updateCellsAux_get_lt (geticon : String → String → Option Image) :
    ∀ (cs : List ForecastCell) (ds : List DayData) (i : Nat),
      i < ds.length → i < cs.length →
      ∃ c d, cs.get? i = some c ∧ ds.get? i = some d ∧
        (updateCellsAux geticon cs ds).get? i = some (renderCell geticon c d) := by
  intro cs
  induction cs with
  | nil => intro ds i _ hc; simp at hc
  | cons c ct ih =>
    intro ds i hd hc
    cases ds with
    | nil => simp at hd
    | cons d dt =>
      cases i with
      | zero => exact ⟨c, d, rfl, rfl, rfl⟩
      | succ j =>
        have hd2 : j < dt.length := by simpa using hd
        have hc2 : j < ct.length := by simpa using hc
        obtain ⟨a, b, h1, h2, h3⟩ := ih dt j hd2 hc2
        exact ⟨a, b, h1, h2, h3⟩

/-- Beyond the zipped range, the old cell content is kept. -/
theorem updateCellsAux_get_ge (geticon : String → String → Option Image) :
    ∀ (cs : List ForecastCell) (ds : List DayData) (i : Nat),
      ds.length ≤ i → (updateCellsAux geticon cs ds).get? i = cs.get? i := by
  intro cs
  induction cs with
  | nil => intro ds i _; cases ds <;> rfl
  | cons c ct ih =>
    intro ds i h
    cases ds with
    | nil => rfl
    | cons d dt =>
      cases i with
      | zero => simp at h
      | succ j => exact ih dt j (by simpa using h)

/-- Indexing into a `take` below the cut. -/
theorem take_get_lt {α : Type} :
    ∀ (l : List α) (n i : Nat), i < n → (l.take n).get? i = l.get? i := by
  intro l
  induction l with
  | nil => intro n i _; simp
  | cons a t ih =>
    intro n i h
    cases n with
    | zero => omega
    | succ m =>
      cases i with
      | zero => rfl
      | succ j => exact ih m j (by omega)

/-- Indexing into `drop 1` shifts the index by one. -/
theorem drop_one_get {α : Type} :
    ∀ (l : List α) (i : Nat), (l.drop 1).get? i = l.get? (i + 1) := by
  intro l i
  cases l with
  | nil => rfl
  | cons a t => rfl

/-- Both bounds of the ticker offset interval are preserved by one tick. -/
theorem scrollStep_bounds (x : Int) (h1 : -1002 ≤ x) (h2 : x ≤ 800) :
    -1002 ≤ scrollStep x ∧ scrollStep x ≤ 800 := by
  unfold scrollStep
  split <;> omega

/-! Claim theorems. -/

/-- C3: the claim says a forced refresh issued by a credentials save while
a cycle chain is outstanding is coalesced or ignored, so at most one
self-rescheduling chain ever exists.  The code instead calls
`update_weather()` directly from `save` (line 305) and `update_weather`
unconditionally re-arms itself (line 365): with one chain outstanding, a
changed-credentials save leaves two chains, and any number of subsequent
timer firings keeps both alive. -/
theorem c3_forced_refresh_doubles_chains :
    schedStep 1 (SchedEv.forcedRefresh true) = 2 ∧
    ∀ m : Nat,
      List.foldl schedStep (schedStep 1 (SchedEv.forcedRefresh true))
        (List.replicate m SchedEv.timerFire) = 2 := by
  refine ⟨rfl, ?_⟩
  intro m
  induction m with
  | zero => rfl
  | succ k ih =>
    rw [List.replicate_succ, List.foldl_cons]
    exact ih

/-- C4: the claim says every fetch is bounded by an explicit 10-second
timeout.  The call at line 318 is `requests.get(url)` with no `timeout`
keyword at all, for every credential triple. -/
theorem c4_fetch_has_no_timeout (lat lon apiKey : String) :
    (fetchCall lat lon apiKey).timeout = none := rfl

/-- C6: for any daily sequence of length at least 6 (written as six
leading entries plus an arbitrary tail) the refresh cycle populates
exactly 5 forecast cells, taken from the entries at indices 1 through 5
inclusive; index 0 never appears. -/
theorem c6_forecast_cells (geticon : String → String → Option Image)
    (c0 c1 c2 c3 c4 : ForecastCell) (d0 d1 d2 d3 d4 d5 : DayData)
    (rest : List DayData) :
    updateCells geticon [c0, c1, c2, c3, c4]
        (d0 :: d1 :: d2 :: d3 :: d4 :: d5 :: rest) =
      [renderCell geticon c0 d1, renderCell geticon c1 d2,
       renderCell geticon c2 d3, renderCell geticon c3 d4,
       renderCell geticon c4 d5] := rfl

/-- C7: displayed integer degrees come from truncation toward zero:
72.9 renders as "72°", -0.4 renders as "0°"; on -0.4 this differs from
floor, and on 72.9 it differs from rounding. -/
theorem c7_truncation :
    fmtDeg (729 / 10) = "72°" ∧ fmtDeg (-2 / 5) = "0°" ∧
    pyInt (-2 / 5) ≠ Int.floor ((-2 : ℚ) / 5) ∧
    pyInt (729 / 10) ≠ round ((729 : ℚ) / 10) := by
  have h1 : pyInt (729 / 10) = 72 := by
    unfold pyInt
    rw [if_neg (by norm_num)]
    norm_num
  have h2 : pyInt (-2 / 5) = 0 := by
    unfold pyInt
    rw [if_pos (by norm_num)]
    norm_num
  have h3 : Int.floor ((-2 : ℚ) / 5) = -1 := by norm_num
  have h4 : round ((729 : ℚ) / 10) = 73 := by
    rw [round_eq]
    norm_num
  refine ⟨?_, ?_, ?_, ?_⟩
  · unfold fmtDeg
    rw [h1]
    rfl
  · unfold fmtDeg
    rw [h2]
    rfl
  · rw [h2, h3]
    decide
  · rw [h1, h4]
    decide

/-- C9: one ticker tick resets any offset below the -1000 wrap threshold
to 800, moves any other offset left by the constant step 2, and from the
initial offset 800 every iterate stays inside the bounded interval
[-1002, 800]. -/
theorem c9_ticker_bounded :
    (∀ x : Int, x < -1000 → scrollStep x = 800) ∧
    (∀ x : Int, ¬ x < -1000 → scrollStep x = x - 2) ∧
    (∀ n : Nat, -1002 ≤ scrollStep^[n] 800 ∧ scrollStep^[n] 800 ≤ 800) := by
  refine ⟨?_, ?_, ?_⟩
  · intro x hx
    unfold scrollStep
    exact if_pos hx
  · intro x hx
    unfold scrollStep
    exact if_neg hx
  · intro n
    induction n with
    | zero =>
      constructor <;> norm_num
    | succ k ih =>
      rw [Function.iterate_succ_apply']
      exact scrollStep_bounds _ ih.1 ih.2

/-- Witness for C9: the wrap fires at the concrete offset -1004, the
constant step shows at offset 10, and the third iterate from 800 obeys
the bounds. -/
theorem c9_witness :
    scrollStep (-1004) = 800 ∧ scrollStep 10 = 10 - 2 ∧
    (-1002 ≤ scrollStep^[3] 800 ∧ scrollStep^[3] 800 ≤ 800) :=
  ⟨c9_ticker_bounded.1 (-1004) (by norm_num),
   c9_ticker_bounded.2.1 10 (by norm_num),
   c9_ticker_bounded.2.2 3⟩

/-- C1 counterexample: a payload whose `current` section exists, with all
fields the code requires present and exactly the three fields the claim
calls optional (`feels_like`, `uvi`, `visibility`) absent.  The claim says
the compose/publish step completes without raising; in fact the direct
subscript `curr['feels_like']` at line 329 raises `KeyError`, so the step
ends with a pending exception. -/
theorem c1_counterexample :
    (publishCurrent gNone resNoFeels currNoFeels "12:00" initState).2 =
      some PyErr.keyError := rfl

/-- C1 amended: when `current` exists and the fields the code reads with a
direct subscript are present (`temp`, `feels_like`, `humidity`,
`wind_speed`, a nonempty `weather` array), the compose/publish step
completes without raising even when `uvi` and `visibility` are absent,
each being substituted by 0 through `.get(..., 0)`. -/
theorem c1_compose_ok_without_optionals
    (geticon : String → String → Option Image) (res : Res) (curr : Current)
    (now : String) (st : RenderState) (t f h w : ℚ) (wd : WeatherDesc)
    (tl : List WeatherDesc)
    (ht : curr.temp = some t) (hf : curr.feels_like = some f)
    (hh : curr.humidity = some h) (hw : curr.wind_speed = some w)
    (hwd : curr.weather = wd :: tl) :
    (publishCurrent geticon res curr now st).2 = none ∧
    (publishCurrent geticon res curr now st).1.det =
      some { feels := pyInt f, humid := h, wind := pyInt w,
             uv := curr.uvi.getD 0, visKm := curr.visibility.getD 0 / 1000 } := by
  cases hgi : geticon wd.icon "@4x" <;>
    simp [publishCurrent, composeDet, ht, hf, hh, hw, hwd, hgi]

/-- Witness for C1: the amended theorem applied to a concrete payload with
`uvi` and `visibility` absent. -/
theorem c1_witness :
    (publishCurrent gNone resWitness currWitness "12:00" initState).2 = none ∧
    (publishCurrent gNone resWitness currWitness "12:00" initState).1.det =
      some { feels := pyInt 68, humid := 50, wind := pyInt 5,
             uv := currWitness.uvi.getD 0,
             visKm := currWitness.visibility.getD 0 / 1000 } :=
  c1_compose_ok_without_optionals gNone resWitness currWitness "12:00"
    initState 70 68 50 5 wdClear [] rfl rfl rfl rfl rfl

/-- C2 counterexample: a cycle that fails because the response lacks the
`current` section does modify previously published render-target content —
line 362 overwrites the description label with an API-error message. -/
theorem c2_counterexample :
    (updateWeather gNone (FetchResult.payload resNoCurrent) "12:00"
        stCloudy).1.desc = "API Error: Check Settings" ∧
    (updateWeather gNone (FetchResult.payload resNoCurrent) "12:00"
        stCloudy).1 ≠ stCloudy := by
  refine ⟨rfl, ?_⟩
  decide

/-- C2 amended: a cycle failing with a raised network error leaves every
render target untouched, and a cycle whose response lacks `current`
overwrites only the description label (with the API-error text built from
the optional `message` field); in both cases the next cycle is scheduled
after the same fixed 600000 ms = 600 s interval. -/
theorem c2_failed_cycle_effects :
    (∀ (geticon : String → String → Option Image) (now : String)
        (st : RenderState),
      updateWeather geticon FetchResult.netError now st = (st, 600000)) ∧
    (∀ (geticon : String → String → Option Image) (res : Res) (now : String)
        (st : RenderState), res.current = none →
      updateWeather geticon (FetchResult.payload res) now st =
        ({ st with desc := "API Error: " ++ res.message.getD "Check Settings" },
         600000)) ∧
    (600000 : Nat) = 600 * 1000 := by
  refine ⟨fun geticon now st => rfl, ?_, rfl⟩
  intro geticon res now st h
  simp [updateWeather, h]

/-- Witness for C2: the amended theorem applied to a concrete
missing-`current` payload over a concrete previously published state. -/
theorem c2_witness :
    updateWeather gNone (FetchResult.payload resNoCurrent) "12:00" stCloudy =
      ({ stCloudy with
          desc := "API Error: " ++ resNoCurrent.message.getD "Check Settings" },
       600000) :=
  c2_failed_cycle_effects.2.1 gNone resNoCurrent "12:00" stCloudy rfl

/-- C5 counterexample: for one alert the banner is built from the alert's
`sender_name` (line 354), not its description; the description text never
occurs in the banner (so no newline flattening of it happens either),
contrary to the claim. -/
theorem c5_counterexample :
    (buildBanner [floodAlert] "12:00").1 = "⚠️ FLOOD: NWS Chicago" ∧
    (listHasInfix "Heavy".toList (buildBanner [floodAlert] "12:00").1.toList)
      = false := by
  refine ⟨rfl, ?_⟩
  decide

/-- C5 amended: with one or more alerts the banner text is the
"  |  "-joined concatenation of "⚠️ {event upper-cased}: {sender_name}"
over the alerts (no newline processing is applied to any field), and the
canvas turns red; with no alerts it is the "Last Sync: {time}" status
line on the idle colour. -/
theorem c5_banner_text :
    (∀ (alerts : List Alert) (now : String), alerts ≠ [] →
      buildBanner alerts now =
        (String.intercalate "  |  "
          (alerts.map (fun x => "⚠️ " ++ pyUpper x.event ++ ": " ++ x.sender_name)),
         true)) ∧
    (∀ now : String, buildBanner [] now = ("Last Sync: " ++ now, false)) := by
  constructor
  · intro alerts now h
    cases alerts with
    | nil => exact absurd rfl h
    | cons a rest => rfl
  · intro now
    rfl

/-- Witness for C5: the amended theorem applied to the concrete flood
alert and to the empty alert list. -/
theorem c5_witness :
    buildBanner [floodAlert] "09:30" =
      (String.intercalate "  |  "
        ([floodAlert].map
          (fun x => "⚠️ " ++ pyUpper x.event ++ ": " ++ x.sender_name)),
       true) ∧
    buildBanner [] "09:30" = ("Last Sync: " ++ "09:30", false) :=
  ⟨c5_banner_text.1 [floodAlert] "09:30" (by decide),
   c5_banner_text.2 "09:30"⟩

/-- C8 counterexample: for a key whose asset file exists but fails to
decode, nothing is cached, so two lookups with the same key perform the
file-load/decode attempt twice — not "at most once" as the claim states
for every key. -/
theorem c8_counterexample :
    ¬ ((getWeatherIcon fsCorrupt emptyCache "01d" "@2x").2.2 +
       (getWeatherIcon fsCorrupt
          (getWeatherIcon fsCorrupt emptyCache "01d" "@2x").2.1
          "01d" "@2x").2.2 ≤ 1) := by
  decide

/-- C8 amended: a second lookup with the same key always returns the same
result as the first; if the first lookup returned an image (cache hit or
successful decode) the second performs no decode work; and for a key whose
backing file is missing (and not already cached) both lookups return
absent with no decode work at all.  A key whose file exists but fails to
decode returns absent each time without propagating the error (the
`except` handler at lines 163–165), but is re-attempted on each call. -/
theorem c8_icon_cache (fs : String → FileState)
    (cache : String → Option Image) (code size : String) :
    ((getWeatherIcon fs (getWeatherIcon fs cache code size).2.1 code size).1 =
      (getWeatherIcon fs cache code size).1) ∧
    ((getWeatherIcon fs cache code size).1.isSome = true →
      (getWeatherIcon fs (getWeatherIcon fs cache code size).2.1
        code size).2.2 = 0) ∧
    (cache (code ++ size) = none →
      fs (iconPath code size) = FileState.absent →
      (getWeatherIcon fs cache code size).1 = none ∧
      (getWeatherIcon fs cache code size).2.2 = 0 ∧
      (getWeatherIcon fs (getWeatherIcon fs cache code size).2.1
        code size).2.2 = 0) := by
  cases hck : cache (code ++ size) with
  | some img => simp [getWeatherIcon, hck]
  | none =>
    cases hfs : fs (iconPath code size) with
    | absent => simp [getWeatherIcon, hck, hfs]
    | corrupt => simp [getWeatherIcon, hck, hfs]
    | good img => simp [getWeatherIcon, hck, hfs]

/-- Witness for C8: a missing asset gives absent twice with zero decode
work, and after a successful decode the second lookup does no work. -/
theorem c8_witness :
    ((getWeatherIcon fsAbsent emptyCache "01d" "@2x").1 = none ∧
     (getWeatherIcon fsAbsent emptyCache "01d" "@2x").2.2 = 0 ∧
     (getWeatherIcon fsAbsent
        (getWeatherIcon fsAbsent emptyCache "01d" "@2x").2.1
        "01d" "@2x").2.2 = 0) ∧
    (getWeatherIcon fsGood
       (getWeatherIcon fsGood emptyCache "01d" "@2x").2.1
       "01d" "@2x").2.2 = 0 :=
  ⟨(c8_icon_cache fsAbsent emptyCache "01d" "@2x").2.2 rfl rfl,
   (c8_icon_cache fsGood emptyCache "01d" "@2x").2.1 rfl⟩

/-- C10: for a daily sequence of length k with 1 ≤ k < 6, the cycle
overwrites only the first k-1 forecast cells (cell i rendered from daily
entry i+1 over its previous content), keeps every later cell — tooltip
details string included — exactly as the previous cycle left it, and
still ends with the full complement of 5 cells, raising no error. -/
theorem c10_stale_forecast (geticon : String → String → Option Image)
    (cells : List ForecastCell) (daily : List DayData) (k : Nat)
    (hc : cells.length = 5) (hd : daily.length = k)
    (hk1 : 1 ≤ k) (hk6 : k < 6) :
    (updateCells geticon cells daily).length = 5 ∧
    (∀ i, i < k - 1 →
      ∃ c d, cells.get? i = some c ∧ daily.get? (i + 1) = some d ∧
        (updateCells geticon cells daily).get? i =
          some (renderCell geticon c d)) ∧
    (∀ i, k - 1 ≤ i →
      (updateCells geticon cells daily).get? i = cells.get? i) := by
  have hsel : ((daily.drop 1).take 5).length = k - 1 := by
    simp [List.length_take, List.length_drop, hd]
    omega
  refine ⟨?_, ?_, ?_⟩
  · rw [updateCells, updateCellsAux_length, hc]
  · intro i hi
    have hlt5 : i < 5 := by omega
    obtain ⟨c, d, h1, h2, h3⟩ :=
      updateCellsAux_get_lt geticon cells ((daily.drop 1).take 5) i
        (by rw [hsel]; exact hi) (by rw [hc]; omega)
    rw [take_get_lt (daily.drop 1) 5 i hlt5, drop_one_get] at h2
    exact ⟨c, d, h1, h2, h3⟩
  · intro i hi
    rw [updateCells]
    exact updateCellsAux_get_ge geticon cells _ i (by rw [hsel]; exact hi)

/-- Witness for C10: with a daily sequence of length 3 the first two cells
are freshly rendered and cells 2, 3, 4 keep their previous content. -/
theorem c10_witness :
    (updateCells gNone initCells dailyThree).length = 5 ∧
    (updateCells gNone initCells dailyThree).get? 2 = initCells.get? 2 ∧
    (updateCells gNone initCells dailyThree).get? 4 = initCells.get? 4 ∧
    (∃ c d, initCells.get? 0 = some c ∧ dailyThree.get? 1 = some d ∧
      (updateCells gNone initCells dailyThree).get? 0 =
        some (renderCell gNone c d)) :=
  ⟨(c10_stale_forecast gNone initCells dailyThree 3 rfl rfl
      (by norm_num) (by norm_num)).1,
   (c10_stale_forecast gNone initCells dailyThree 3 rfl rfl
      (by norm_num) (by norm_num)).2.2 2 (by norm_num),
   (c10_stale_forecast gNone initCells dailyThree 3 rfl rfl
      (by norm_num) (by norm_num)).2.2 4 (by norm_num),
   (c10_stale_forecast gNone initCells dailyThree 3 rfl rfl
      (by norm_num) (by norm_num)).2.1 0 (by norm_num)⟩

end PIWeather
